import Mathlib

/-!
# Verification of the solver factory registry
  (src/include/caffe/solver_factory.hpp)

The source is a keyed factory: per precision type `Dtype`, a process-wide
`std::map<string, Creator>` maps a solver-type identifier to a creator
function pointer.  `AddCreator` inserts after a fatal duplicate check,
`CreateSolver` looks an identifier up (fatal with a diagnostic listing the
known identifiers when absent) and invokes the stored creator,
`SolverTypeList` lists the registered identifiers in map (lexicographic)
order, `SolverTypeListString` joins them with ", ".  the constructor of `SolverRegisterer`
forwards to `AddCreator`; the two registration macros expand
into one registrar per precision type (float and double).

The embedding below is shallow: the `std::map` is a key-sorted association
list, fatal `CHECK` failures become an error component carried next to the
(unchanged) state, and the solver instance type is a type parameter `σ`
so that creator functions are plain Lean functions
`SolverParameter → σ`.  A stored creator is modelled as
`Option (SolverParameter → σ)`: `none` is the null function pointer that
`std::map::operator[]` would value-initialize for an absent key.
-/

namespace SolverFactory

/-- The configuration object (`SolverParameter` protobuf).  The registry
only reads its `type` field; `payload` stands for the remaining,
registry-opaque configuration fields. -/
structure SolverParameter where
  type : String
  payload : Nat
deriving DecidableEq

/-- `Creator`: the function-pointer type
`Solver<Dtype>* (*)(const SolverParameter&)`, with the solver instance
type abstracted as `σ`. -/
def Creator (σ : Type) : Type := SolverParameter → σ

/-- A stored map value: a creator function pointer, possibly null
(`none` models the value-initialized null pointer). -/
abbrev CreatorPtr (σ : Type) : Type := Option (Creator σ)

/-- `CreatorRegistry` = `std::map<string, Creator>`, modelled as an
association list whose keys are kept in strictly increasing
(lexicographic) order by insertion. -/
abbrev CreatorRegistry (σ : Type) : Type := List (String × CreatorPtr σ)

/-- `std::map::count(k)`: the number of entries with key `k`. -/
def mapCount {σ : Type} (reg : CreatorRegistry σ) (k : String) : Nat :=
  reg.countP (fun e => e.1 == k)

/-- Lookup of the value stored under `k` (first matching entry). -/
def mapFind {σ : Type} : CreatorRegistry σ → String → Option (CreatorPtr σ)
  | [], _ => none
  | (k', v') :: rest, k => if k == k' then some v' else mapFind rest k

/-- Lexicographic comparison of character lists: the elementwise
comparison of `std::less<string>`, a shorter prefix ordering first. -/
def strLtAux : List Char → List Char → Bool
  | _, [] => false
  | [], _ :: _ => true
  | a :: as, b :: bs =>
    if a.toNat < b.toNat then true
    else if a.toNat = b.toNat then strLtAux as bs
    else false

/-- `std::less<string>`: strict lexicographic order on identifiers. -/
def strLt (s t : String) : Bool := strLtAux s.data t.data

/-- `std::map` insertion at the ordered position: before the first larger
key; replaces the stored value when the key is already present. -/
def mapInsert {σ : Type} (k : String) (v : CreatorPtr σ) :
    CreatorRegistry σ → CreatorRegistry σ
  | [] => [(k, v)]
  | (k', v') :: rest =>
    if strLt k k' then (k, v) :: (k', v') :: rest
    else if k == k' then (k, v) :: rest
    else (k', v') :: mapInsert k v rest

/-- `std::map::operator[]`: returns the stored value; for an absent key it
first inserts a value-initialized entry (a null creator pointer) and
returns that.  The returned registry is the possibly-grown map. -/
def mapSubscript {σ : Type} (reg : CreatorRegistry σ) (k : String) :
    CreatorRegistry σ × CreatorPtr σ :=
  match mapFind reg k with
  | some v => (reg, v)
  | none => (mapInsert k none reg, none)

/-- The invariant `std::map` maintains: keys strictly increasing in the
`std::less<string>` order. -/
abbrev SortedKeys {σ : Type} (reg : CreatorRegistry σ) : Prop :=
  List.Pairwise (fun a b => strLt a b = true) (reg.map Prod.fst)

/-- `SolverRegistry::AddCreator`: `CHECK_EQ(registry.count(type), 0)` then
`registry[type] = creator`.  The result pairs the registry state at
return (or at the fatal check, which precedes any insertion) with the
fatal error message, if any. -/
def AddCreator {σ : Type} (reg : CreatorRegistry σ) (type : String)
    (creator : Creator σ) : CreatorRegistry σ × Option String :=
  if mapCount reg type = 0 then
    (mapInsert type (some creator) reg, none)
  else
    (reg, some ("Solver type " ++ type ++ " already registered."))

/-- `SolverRegistry::SolverTypeList`: the registered identifiers in map
iteration order. -/
def SolverTypeList {σ : Type} (reg : CreatorRegistry σ) : List String :=
  reg.map Prod.fst

/-- `SolverRegistry::SolverTypeListString`: starts from the empty string
and, for every identifier after the first, appends ", " before it. -/
def SolverTypeListString {σ : Type} (reg : CreatorRegistry σ) : String :=
  match SolverTypeList reg with
  | [] => ""
  | t :: rest => rest.foldl (fun acc s => acc ++ ", " ++ s) t

/-- `SolverRegistry::CreateSolver`:
`CHECK_EQ(registry.count(type), 1)` with the unknown-type diagnostic, then
`registry[type](param)`.  Returns the registry state after the call next to
the outcome: the created instance, or the fatal message.  Calling a null
creator pointer (unreachable from `AddCreator`-built registries) is
modelled as its own error. -/
def CreateSolver {σ : Type} (reg : CreatorRegistry σ) (param : SolverParameter) :
    CreatorRegistry σ × Except String σ :=
  let type := param.type
  if mapCount reg type = 1 then
    match mapSubscript reg type with
    | (reg', some c) => (reg', Except.ok (c param))
    | (reg', none) => (reg', Except.error "null creator pointer")
  else
    (reg, Except.error ("Unknown solver type: " ++ type ++
      " (known types: " ++ SolverTypeListString reg ++ ")"))

/-- The pair of per-precision registries: `SolverRegistry<float>` and
`SolverRegistry<double>` each own an independent static map.  `σf` and
`σd` are the respective solver instance types. -/
structure GlobalState (σf σd : Type) where
  regF : CreatorRegistry σf
  regD : CreatorRegistry σd

/-- The constructor of `SolverRegisterer<float>`: a single call to
`SolverRegistry<float>::AddCreator(type, creator)`. -/
def SolverRegistererFloat {σf σd : Type} (st : GlobalState σf σd)
    (type : String) (creator : Creator σf) : GlobalState σf σd × Option String :=
  let r := AddCreator st.regF type creator
  ({ st with regF := r.1 }, r.2)

/-- The constructor of `SolverRegisterer<double>`: a single call to
`SolverRegistry<double>::AddCreator(type, creator)`. -/
def SolverRegistererDouble {σf σd : Type} (st : GlobalState σf σd)
    (type : String) (creator : Creator σd) : GlobalState σf σd × Option String :=
  let r := AddCreator st.regD type creator
  ({ st with regD := r.1 }, r.2)

/-- `REGISTER_SOLVER_CREATOR(type, creator)`: two static registrar
objects for the same identifier, `SolverRegisterer<float>` then
`SolverRegisterer<double>`.  A fatal check in the first aborts before the
second runs. -/
def RegisterSolverCreator {σf σd : Type} (st : GlobalState σf σd)
    (type : String) (creatorF : Creator σf) (creatorD : Creator σd) :
    GlobalState σf σd × Option String :=
  match SolverRegistererFloat st type creatorF with
  | (st1, none) => SolverRegistererDouble st1 type creatorD
  | (st1, some e) => (st1, some e)

/-- The auto-generated `Creator_<type>Solver` of `REGISTER_SOLVER_CLASS`:
`return new type##Solver<Dtype>(param);` — `mk` is the constructor of the
concrete class. -/
def CreatorOfClass {σ : Type} (mk : SolverParameter → σ) : Creator σ :=
  fun param => mk param

/-- `REGISTER_SOLVER_CLASS(type)`: defines the generic
`Creator_<type>Solver` and expands to
`REGISTER_SOLVER_CREATOR(type, Creator_<type>Solver)`. -/
def RegisterSolverClass {σf σd : Type} (st : GlobalState σf σd)
    (type : String) (mkF : SolverParameter → σf) (mkD : SolverParameter → σd) :
    GlobalState σf σd × Option String :=
  RegisterSolverCreator st type (CreatorOfClass mkF) (CreatorOfClass mkD)

/-- Folding a sequence of `AddCreator` calls; stops at the first fatal
check. -/
def registerAll {σ : Type} (reg : CreatorRegistry σ) :
    List (String × Creator σ) → CreatorRegistry σ × Option String
  | [] => (reg, none)
  | (t, c) :: rest =>
    match AddCreator reg t c with
    | (reg', none) => registerAll reg' rest
    | (reg', some e) => (reg', some e)

/-- Containment of `sub` in `s` as a contiguous substring. -/
def StrContains (s sub : String) : Prop :=
  ∃ pre post : String, s = pre ++ sub ++ post

/-- The description the spec gives of the diagnostic enumeration, written
from the words of the spec rather than from the loop in the source: the identifiers
joined with the separator ", ", with no leading or trailing separator and
empty for an empty list.  Compared against `SolverTypeListString`. -/
def specJoinTypes : List String → String
  | [] => ""
  | [t] => t
  | t :: rest => t ++ ", " ++ specJoinTypes rest

/-- The tail of the separator-join: ", " before each identifier. -/
def sepTail : List String → String
  | [] => ""
  | s :: rest => ", " ++ s ++ sepTail rest

/-! ## Order lemmas for the key comparison -/

theorem strLtAux_irrefl (l : List Char) : strLtAux l l = false := by
  induction l with
  | nil => rfl
  | cons a as ih => simp [strLtAux, ih]

theorem strLtAux_trans (a : List Char) : ∀ b c : List Char,
    strLtAux a b = true → strLtAux b c = true → strLtAux a c = true := by
  induction a with
  | nil =>
    intro b c h1 h2
    cases c with
    | nil => cases b <;> simp [strLtAux] at h2
    | cons c cs => simp [strLtAux]
  | cons a as ih =>
    intro b c h1 h2
    cases b with
    | nil => simp [strLtAux] at h1
    | cons b bs =>
      cases c with
      | nil => simp [strLtAux] at h2
      | cons c cs =>
        simp only [strLtAux] at h1 h2 ⊢
        by_cases hab : a.toNat < b.toNat
        · by_cases hbc : b.toNat < c.toNat
          · simp [Nat.lt_trans hab hbc]
          · simp only [hbc, if_false] at h2
            by_cases hbc2 : b.toNat = c.toNat
            · simp [hbc2 ▸ hab]
            · simp [hbc2] at h2
        · simp only [hab, if_false] at h1
          by_cases hab2 : a.toNat = b.toNat
          · simp only [hab2, if_true] at h1
            by_cases hbc : b.toNat < c.toNat
            · simp [hab2 ▸ hbc]
            · simp only [hbc, if_false] at h2
              by_cases hbc2 : b.toNat = c.toNat
              · have hac : a.toNat = c.toNat := hab2.trans hbc2
                have hlt : ¬ a.toNat < c.toNat := by omega
                simp only [hbc2, if_true] at h2
                simp [hlt, hac, ih bs cs h1 h2]
              · simp [hbc2] at h2
          · simp [hab2] at h1

theorem strLtAux_eq_of_not_lt (a : List Char) : ∀ b : List Char,
    strLtAux a b = false → strLtAux b a = false → a = b := by
  induction a with
  | nil =>
    intro b h1 _
    cases b with
    | nil => rfl
    | cons b bs => simp [strLtAux] at h1
  | cons a as ih =>
    intro b h1 h2
    cases b with
    | nil => simp [strLtAux] at h2
    | cons b bs =>
      simp only [strLtAux] at h1 h2
      by_cases hab : a.toNat < b.toNat
      · simp [hab] at h1
      · by_cases hba : b.toNat < a.toNat
        · simp [hba] at h2
        · have he : a.toNat = b.toNat := by omega
          rw [if_neg hab, if_pos he] at h1
          rw [if_neg hba, if_pos he.symm] at h2
          have hc : a = b := Char.eq_of_val_eq (UInt32.eq_of_val_eq (Fin.ext he))
          rw [hc, ih bs h1 h2]

theorem string_eq_of_data_eq {s t : String} (h : s.data = t.data) : s = t := by
  cases s; cases t; exact congrArg String.mk h

theorem strLt_trans {a b c : String} (h1 : strLt a b = true)
    (h2 : strLt b c = true) : strLt a c = true :=
  strLtAux_trans a.data b.data c.data h1 h2

theorem strLt_of_not_lt_of_ne {a b : String} (h1 : strLt a b = false)
    (h2 : a ≠ b) : strLt b a = true := by
  cases hba : strLt b a with
  | false => exact absurd (string_eq_of_data_eq (strLtAux_eq_of_not_lt a.data b.data h1 hba)) h2
  | true => rfl

theorem strLt_ne {a b : String} (h : strLt a b = true) : a ≠ b := by
  intro he
  rw [he, strLt, strLtAux_irrefl] at h
  exact Bool.false_ne_true h

/-! ## Substring containment lemmas -/

theorem strContains_self (s : String) : StrContains s s :=
  ⟨"", "", by simp⟩

theorem strContains_append_left (a b : String) : StrContains (a ++ b) a :=
  ⟨"", b, by simp⟩

theorem strContains_append_right (a b : String) : StrContains (a ++ b) b :=
  ⟨a, "", by simp⟩

theorem strContains_trans {x y z : String} (h1 : StrContains x y)
    (h2 : StrContains y z) : StrContains x z := by
  obtain ⟨p, q, rfl⟩ := h1
  obtain ⟨p', q', rfl⟩ := h2
  exact ⟨p ++ p', q' ++ q, by simp [String.append_assoc]⟩

theorem strContains_context (pre post : String) {s sub : String}
    (h : StrContains s sub) : StrContains (pre ++ s ++ post) sub := by
  obtain ⟨p, q, rfl⟩ := h
  exact ⟨pre ++ p, q ++ post, by simp [String.append_assoc]⟩

/-! ## Map lemmas -/

theorem mapCount_eq_count {σ : Type} (reg : CreatorRegistry σ) (k : String) :
    mapCount reg k = List.count k (SolverTypeList reg) := by
  simp [mapCount, SolverTypeList, List.count, List.countP_map, Function.comp_def]

theorem mapCount_eq_zero {σ : Type} {reg : CreatorRegistry σ} {k : String} :
    mapCount reg k = 0 ↔ k ∉ SolverTypeList reg := by
  rw [mapCount_eq_count, List.count_eq_zero]

theorem mapFind_isSome_iff {σ : Type} (reg : CreatorRegistry σ) (k : String) :
    (mapFind reg k).isSome = true ↔ k ∈ SolverTypeList reg := by
  induction reg with
  | nil => simp [mapFind, SolverTypeList]
  | cons e rest ih =>
    obtain ⟨k', v'⟩ := e
    by_cases h : k = k'
    · simp [mapFind, SolverTypeList, h]
    · simp only [mapFind, beq_iff_eq, h, if_false]
      simp only [SolverTypeList, List.map_cons, List.mem_cons]
      rw [ih]
      simp [SolverTypeList, h]

theorem mem_solverTypeList_mapInsert {σ : Type} (k : String) (v : CreatorPtr σ)
    (reg : CreatorRegistry σ) (x : String) :
    x ∈ SolverTypeList (mapInsert k v reg) ↔ x = k ∨ x ∈ SolverTypeList reg := by
  induction reg with
  | nil => simp [mapInsert, SolverTypeList]
  | cons e rest ih =>
    obtain ⟨k', v'⟩ := e
    simp only [mapInsert]
    by_cases hlt : strLt k k' = true
    · rw [if_pos hlt]
      simp [SolverTypeList]
    · rw [if_neg hlt]
      by_cases heq : k = k'
      · subst heq
        rw [if_pos (beq_iff_eq.mpr rfl)]
        simp only [SolverTypeList, List.map_cons, List.mem_cons]
        tauto
      · rw [if_neg (fun hc => heq (beq_iff_eq.mp hc))]
        simp only [SolverTypeList, List.map_cons, List.mem_cons] at ih ⊢
        rw [ih]
        tauto

theorem sortedKeys_mapInsert {σ : Type} {reg : CreatorRegistry σ}
    (k : String) (v : CreatorPtr σ) (h : SortedKeys reg) :
    SortedKeys (mapInsert k v reg) := by
  induction reg with
  | nil => simp [mapInsert, SortedKeys]
  | cons e rest ih =>
    obtain ⟨k', v'⟩ := e
    simp only [SortedKeys, List.map_cons, List.pairwise_cons] at h
    obtain ⟨h1, h2⟩ := h
    simp only [SortedKeys, mapInsert]
    by_cases hlt : strLt k k' = true
    · rw [if_pos hlt]
      simp only [List.map_cons, List.pairwise_cons]
      refine ⟨?_, ?_, h2⟩
      · intro b hb
        rcases List.mem_cons.mp hb with rfl | hb'
        · exact hlt
        · exact strLt_trans hlt (h1 b hb')
      · exact h1
    · rw [if_neg hlt]
      by_cases heq : k = k'
      · subst heq
        rw [if_pos (beq_iff_eq.mpr rfl)]
        simp only [List.map_cons, List.pairwise_cons]
        exact ⟨h1, h2⟩
      · rw [if_neg (fun hc => heq (beq_iff_eq.mp hc))]
        simp only [List.map_cons, List.pairwise_cons]
        refine ⟨?_, ih h2⟩
        intro b hb
        rcases (mem_solverTypeList_mapInsert k v rest b).mp hb with rfl | hb'
        · exact strLt_of_not_lt_of_ne (Bool.eq_false_iff.mpr hlt) heq
        · exact h1 b hb'

theorem sortedKeys_nodup {σ : Type} {reg : CreatorRegistry σ}
    (h : SortedKeys reg) : (SolverTypeList reg).Nodup :=
  h.imp (fun hlt => strLt_ne hlt)

theorem mapCount_eq_one_of_mem {σ : Type} {reg : CreatorRegistry σ} {k : String}
    (hs : SortedKeys reg) (hm : k ∈ SolverTypeList reg) : mapCount reg k = 1 := by
  rw [mapCount_eq_count]
  have hle := List.nodup_iff_count_le_one.mp (sortedKeys_nodup hs) k
  have hge : 0 < List.count k (SolverTypeList reg) := List.count_pos_iff.mpr hm
  omega

theorem length_mapInsert_of_absent {σ : Type} {reg : CreatorRegistry σ} {k : String}
    (v : CreatorPtr σ) (h : k ∉ SolverTypeList reg) :
    (mapInsert k v reg).length = reg.length + 1 := by
  induction reg with
  | nil => rfl
  | cons e rest ih =>
    obtain ⟨k', v'⟩ := e
    simp only [SolverTypeList, List.map_cons, List.mem_cons] at h
    push_neg at h
    obtain ⟨hne, hrest⟩ := h
    simp only [mapInsert]
    by_cases hlt : strLt k k' = true
    · rw [if_pos hlt]
      rfl
    · rw [if_neg hlt, if_neg (fun hc => hne (beq_iff_eq.mp hc)), List.length_cons,
        ih hrest]
      rfl

theorem mapFind_mapInsert_self {σ : Type} (reg : CreatorRegistry σ)
    (k : String) (v : CreatorPtr σ) : mapFind (mapInsert k v reg) k = some v := by
  induction reg with
  | nil => simp [mapInsert, mapFind]
  | cons e rest ih =>
    obtain ⟨k', v'⟩ := e
    simp only [mapInsert]
    by_cases hlt : strLt k k' = true
    · rw [if_pos hlt]
      simp [mapFind]
    · rw [if_neg hlt]
      by_cases heq : k = k'
      · subst heq
        rw [if_pos (beq_iff_eq.mpr rfl)]
        simp [mapFind]
      · rw [if_neg (fun hc => heq (beq_iff_eq.mp hc))]
        simp [mapFind, heq, ih]

theorem mapFind_exists_of_mapCount_pos {σ : Type} {reg : CreatorRegistry σ}
    {k : String} (h : 0 < mapCount reg k) : ∃ v, mapFind reg k = some v := by
  have hm : k ∈ SolverTypeList reg := by
    by_contra hc
    rw [← mapCount_eq_zero] at hc
    omega
  have := (mapFind_isSome_iff reg k).mpr hm
  exact Option.isSome_iff_exists.mp this

theorem mapCount_eq_one_of_find {σ : Type} {reg : CreatorRegistry σ} {k : String}
    {v : CreatorPtr σ} (hs : SortedKeys reg) (hf : mapFind reg k = some v) :
    mapCount reg k = 1 := by
  apply mapCount_eq_one_of_mem hs
  rw [← mapFind_isSome_iff reg k, hf]
  rfl

/-! ## The diagnostic join -/

theorem foldl_sep_eq (l : List String) : ∀ acc : String,
    l.foldl (fun a s => a ++ ", " ++ s) acc = acc ++ sepTail l := by
  induction l with
  | nil => intro acc; simp [sepTail]
  | cons s l ih =>
    intro acc
    simp only [List.foldl_cons, sepTail]
    rw [ih]
    simp [String.append_assoc]

theorem specJoinTypes_cons (t : String) (l : List String) :
    specJoinTypes (t :: l) = t ++ sepTail l := by
  induction l generalizing t with
  | nil => simp [specJoinTypes, sepTail]
  | cons s l ih =>
    simp only [specJoinTypes, sepTail]
    rw [ih]
    simp [String.append_assoc]

theorem solverTypeListString_eq_specJoin {σ : Type} (reg : CreatorRegistry σ) :
    SolverTypeListString reg = specJoinTypes (SolverTypeList reg) := by
  unfold SolverTypeListString
  cases h : SolverTypeList reg with
  | nil => simp [specJoinTypes]
  | cons t rest => exact (foldl_sep_eq rest t).trans (specJoinTypes_cons t rest).symm

theorem strContains_foldl_sep (l : List String) : ∀ acc : String,
    StrContains (l.foldl (fun a s => a ++ ", " ++ s) acc) acc ∧
    ∀ t ∈ l, StrContains (l.foldl (fun a s => a ++ ", " ++ s) acc) t := by
  induction l with
  | nil => intro acc; exact ⟨strContains_self acc, by simp⟩
  | cons s l ih =>
    intro acc
    simp only [List.foldl_cons]
    obtain ⟨hacc, helem⟩ := ih (acc ++ ", " ++ s)
    constructor
    · exact strContains_trans hacc
        (strContains_trans (strContains_append_left (acc ++ ", ") s)
          (strContains_append_left acc ", "))
    · intro t ht
      rcases List.mem_cons.mp ht with rfl | ht'
      · exact strContains_trans hacc (strContains_append_right (acc ++ ", ") t)
      · exact helem t ht'

theorem strContains_solverTypeListString {σ : Type} (reg : CreatorRegistry σ) :
    ∀ t ∈ SolverTypeList reg, StrContains (SolverTypeListString reg) t := by
  intro t ht
  unfold SolverTypeListString
  cases h : SolverTypeList reg with
  | nil => rw [h] at ht; simp at ht
  | cons s rest =>
    rw [h] at ht
    rcases List.mem_cons.mp ht with rfl | ht'
    · exact (strContains_foldl_sep rest t).1
    · exact (strContains_foldl_sep rest s).2 t ht'

/-! ## Characterizations of the registry operations -/

theorem addCreator_ok {σ : Type} {reg : CreatorRegistry σ} {t : String} (c : Creator σ)
    (h : t ∉ SolverTypeList reg) :
    AddCreator reg t c = (mapInsert t (some c) reg, none) := by
  simp [AddCreator, mapCount_eq_zero.mpr h]

theorem addCreator_dup {σ : Type} {reg : CreatorRegistry σ} {t : String} (c : Creator σ)
    (h : t ∈ SolverTypeList reg) :
    AddCreator reg t c = (reg, some ("Solver type " ++ t ++ " already registered.")) := by
  have hc : mapCount reg t ≠ 0 := fun hz => (mapCount_eq_zero.mp hz) h
  simp [AddCreator, hc]

theorem createSolver_ok {σ : Type} {reg : CreatorRegistry σ} {param : SolverParameter}
    {c : Creator σ} (hs : SortedKeys reg) (hf : mapFind reg param.type = some (some c)) :
    CreateSolver reg param = (reg, Except.ok (c param)) := by
  have hc : mapCount reg param.type = 1 := mapCount_eq_one_of_find hs hf
  simp [CreateSolver, hc, mapSubscript, hf]

theorem createSolver_absent {σ : Type} {reg : CreatorRegistry σ} {param : SolverParameter}
    (h : param.type ∉ SolverTypeList reg) :
    CreateSolver reg param = (reg, Except.error ("Unknown solver type: " ++ param.type ++
      " (known types: " ++ SolverTypeListString reg ++ ")")) := by
  have hc : mapCount reg param.type = 0 := mapCount_eq_zero.mpr h
  simp [CreateSolver, hc]

theorem createSolver_fst_of_present {σ : Type} {reg : CreatorRegistry σ}
    {param : SolverParameter} (h : mapCount reg param.type = 1) :
    (CreateSolver reg param).1 = reg := by
  obtain ⟨v, hv⟩ := @mapFind_exists_of_mapCount_pos σ reg param.type (by omega)
  cases v with
  | none => simp [CreateSolver, h, mapSubscript, hv]
  | some c => simp [CreateSolver, h, mapSubscript, hv]

theorem registerAll_ok {σ : Type} :
    ∀ (calls : List (String × Creator σ)) (reg0 reg : CreatorRegistry σ),
    SortedKeys reg0 → registerAll reg0 calls = (reg, none) →
    SortedKeys reg ∧ reg.length = reg0.length + calls.length ∧
      ∀ x, x ∈ SolverTypeList reg ↔
        x ∈ SolverTypeList reg0 ∨ x ∈ calls.map Prod.fst := by
  intro calls
  induction calls with
  | nil =>
    intro reg0 reg hs h
    simp only [registerAll, Prod.mk.injEq] at h
    rw [← h.1]
    exact ⟨hs, rfl, by simp⟩
  | cons tc rest ih =>
    intro reg0 reg hs h
    obtain ⟨t, c⟩ := tc
    by_cases hmem : t ∈ SolverTypeList reg0
    · simp [registerAll, addCreator_dup c hmem] at h
    · simp only [registerAll, addCreator_ok c hmem] at h
      have hs' := sortedKeys_mapInsert t (some c) hs
      obtain ⟨h1, h2, h3⟩ := ih _ reg hs' h
      refine ⟨h1, ?_, ?_⟩
      · rw [h2, length_mapInsert_of_absent _ hmem, List.length_cons]
        omega
      · intro x
        rw [h3 x, mem_solverTypeList_mapInsert]
        simp only [List.map_cons, List.mem_cons]
        tauto

/-! ## The claims -/

/-- Claim C1: for every well-formed registry and every identifier
registered in it, `CreateSolver` on a configuration object whose type
field equals that identifier invokes the creator stored under that
identifier, passing the configuration object, and returns its result
unchanged with no additional validation: the complete outcome is exactly
`(reg, Except.ok (creator param))`, the instance the associated creator
produces. -/
theorem createSolver_type_identity {σ : Type} {reg : CreatorRegistry σ}
    {param : SolverParameter} {creator : Creator σ} (hs : SortedKeys reg)
    (hf : mapFind reg param.type = some (some creator)) :
    CreateSolver reg param = (reg, Except.ok (creator param)) :=
  createSolver_ok hs hf

/-- Witness for claim C1 at a concrete one-entry registry. -/
theorem createSolver_type_identity_witness :
    SortedKeys ([("SGD", some (fun p => p.payload))] : CreatorRegistry Nat) ∧
    mapFind ([("SGD", some (fun p => p.payload))] : CreatorRegistry Nat) "SGD" =
      some (some (fun p => p.payload)) ∧
    CreateSolver ([("SGD", some (fun p => p.payload))] : CreatorRegistry Nat)
        ⟨"SGD", 42⟩ =
      ([("SGD", some (fun p => p.payload))], Except.ok 42) :=
  ⟨by decide, rfl,
    @createSolver_type_identity Nat [("SGD", some (fun p => p.payload))]
      ⟨"SGD", 42⟩ (fun p => p.payload) (by decide) rfl⟩

/-- Claim C2: `AddCreator` succeeds exactly when the identifier is not
already present and fails with the fatal DuplicateRegistration message
otherwise; for distinct fresh identifiers A and B, registering A then B
succeeds, while registering A then A again fails even with the identical
creator. -/
theorem addCreator_duplicate_check {σ : Type} (reg : CreatorRegistry σ)
    (A B : String) (cA cB : Creator σ) (hA : A ∉ SolverTypeList reg)
    (hB : B ∉ SolverTypeList reg) (hAB : A ≠ B) :
    (∀ t (c : Creator σ), (AddCreator reg t c).2 = none ↔ t ∉ SolverTypeList reg) ∧
    (∀ t (c : Creator σ), t ∈ SolverTypeList reg →
      (AddCreator reg t c).2 = some ("Solver type " ++ t ++ " already registered.")) ∧
    (AddCreator reg A cA).2 = none ∧
    (AddCreator (AddCreator reg A cA).1 B cB).2 = none ∧
    (AddCreator (AddCreator reg A cA).1 A cA).2 =
      some ("Solver type " ++ A ++ " already registered.") := by
  have hmemB : B ∉ SolverTypeList (mapInsert A (some cA) reg) := by
    rw [SolverTypeList] at hB ⊢
    intro hc
    rcases (mem_solverTypeList_mapInsert A (some cA) reg B).mp hc with rfl | hc'
    · exact hAB rfl
    · exact hB hc'
  have hmemA : A ∈ SolverTypeList (mapInsert A (some cA) reg) :=
    (mem_solverTypeList_mapInsert A (some cA) reg A).mpr (Or.inl rfl)
  refine ⟨?_, ?_, ?_, ?_, ?_⟩
  · intro t c
    by_cases hm : t ∈ SolverTypeList reg
    · simp [addCreator_dup c hm, hm]
    · simp [addCreator_ok c hm, hm]
  · intro t c hm
    rw [addCreator_dup c hm]
  · rw [addCreator_ok cA hA]
  · rw [addCreator_ok cA hA, addCreator_ok cB hmemB]
  · rw [addCreator_ok cA hA, addCreator_dup cA hmemA]

/-- Witness for claim C2 starting from the empty registry with
identifiers SGD and Adam. -/
theorem addCreator_duplicate_check_witness :
    ("SGD" ∉ SolverTypeList ([] : CreatorRegistry Nat) ∧
     "Adam" ∉ SolverTypeList ([] : CreatorRegistry Nat) ∧
     ("SGD" : String) ≠ "Adam") ∧
    ((∀ t (c : Creator Nat),
        (AddCreator ([] : CreatorRegistry Nat) t c).2 = none ↔
          t ∉ SolverTypeList ([] : CreatorRegistry Nat)) ∧
     (∀ t (c : Creator Nat), t ∈ SolverTypeList ([] : CreatorRegistry Nat) →
        (AddCreator ([] : CreatorRegistry Nat) t c).2 =
          some ("Solver type " ++ t ++ " already registered.")) ∧
     (AddCreator ([] : CreatorRegistry Nat) "SGD" (fun p => p.payload)).2 = none ∧
     (AddCreator (AddCreator ([] : CreatorRegistry Nat) "SGD"
        (fun p => p.payload)).1 "Adam" (fun p => p.payload + 1)).2 = none ∧
     (AddCreator (AddCreator ([] : CreatorRegistry Nat) "SGD"
        (fun p => p.payload)).1 "SGD" (fun p => p.payload)).2 =
       some ("Solver type " ++ "SGD" ++ " already registered.")) :=
  ⟨⟨by decide, by decide, by decide⟩,
    addCreator_duplicate_check [] "SGD" "Adam" (fun p => p.payload)
      (fun p => p.payload + 1) (by decide) (by decide) (by decide)⟩

/-- Claim C3: for an identifier not present in the registry,
`CreateSolver` fails with the fatal UnknownType error, and the diagnostic
message contains every currently registered identifier as a substring. -/
theorem createSolver_unknown_type {σ : Type} (reg : CreatorRegistry σ)
    (param : SolverParameter) (h : param.type ∉ SolverTypeList reg) :
    (CreateSolver reg param).2 = Except.error ("Unknown solver type: " ++
      param.type ++ " (known types: " ++ SolverTypeListString reg ++ ")") ∧
    ∀ t ∈ SolverTypeList reg,
      StrContains ("Unknown solver type: " ++ param.type ++
        " (known types: " ++ SolverTypeListString reg ++ ")") t := by
  refine ⟨by rw [createSolver_absent h], ?_⟩
  intro t ht
  exact strContains_context _ ")" (strContains_solverTypeListString reg t ht)

/-- Witness for claim C3 on a registry holding SGD and Adam and the
unregistered identifier Nonexistent. -/
theorem createSolver_unknown_type_witness :
    ("Nonexistent" ∉ SolverTypeList
      ([("Adam", some (fun p => p.payload)),
        ("SGD", some (fun p => p.payload + 1))] : CreatorRegistry Nat)) ∧
    ((CreateSolver
        ([("Adam", some (fun p => p.payload)),
          ("SGD", some (fun p => p.payload + 1))] : CreatorRegistry Nat)
        ⟨"Nonexistent", 0⟩).2 =
      Except.error ("Unknown solver type: " ++ "Nonexistent" ++
        " (known types: " ++ SolverTypeListString
          ([("Adam", some (fun p => p.payload)),
            ("SGD", some (fun p => p.payload + 1))] : CreatorRegistry Nat) ++ ")") ∧
     ∀ t ∈ SolverTypeList
        ([("Adam", some (fun p => p.payload)),
          ("SGD", some (fun p => p.payload + 1))] : CreatorRegistry Nat),
        StrContains ("Unknown solver type: " ++ "Nonexistent" ++
          " (known types: " ++ SolverTypeListString
            ([("Adam", some (fun p => p.payload)),
              ("SGD", some (fun p => p.payload + 1))] : CreatorRegistry Nat) ++ ")") t) :=
  ⟨by decide,
    createSolver_unknown_type
      [("Adam", some (fun p => p.payload)), ("SGD", some (fun p => p.payload + 1))]
      ⟨"Nonexistent", 0⟩ (by decide)⟩

/-- Claim C4: registries of distinct precision types are fully
independent: registering an identifier under one precision type leaves
the registry of the other unchanged, so the identifier resolves under the
other precision type only if it has been separately registered there —
absent that, `CreateSolver` under the other precision type still fails
with UnknownType.  Stated in both directions. -/
theorem precision_registries_independent {σf σd : Type} (st : GlobalState σf σd)
    (foo : String) (cF : Creator σf) (cD : Creator σd) (x : Nat)
    (hD : foo ∉ SolverTypeList st.regD) (hF : foo ∉ SolverTypeList st.regF) :
    (SolverRegistererFloat st foo cF).1.regD = st.regD ∧
    (SolverRegistererDouble st foo cD).1.regF = st.regF ∧
    (CreateSolver (SolverRegistererFloat st foo cF).1.regD ⟨foo, x⟩).2 =
      Except.error ("Unknown solver type: " ++ foo ++
        " (known types: " ++ SolverTypeListString st.regD ++ ")") ∧
    (CreateSolver (SolverRegistererDouble st foo cD).1.regF ⟨foo, x⟩).2 =
      Except.error ("Unknown solver type: " ++ foo ++
        " (known types: " ++ SolverTypeListString st.regF ++ ")") := by
  refine ⟨rfl, rfl, ?_, ?_⟩
  · show (CreateSolver st.regD ⟨foo, x⟩).2 = _
    rw [createSolver_absent hD]
  · show (CreateSolver st.regF ⟨foo, x⟩).2 = _
    rw [createSolver_absent hF]

/-- Witness for claim C4: registering SGD for float only, from empty
registries. -/
theorem precision_registries_independent_witness :
    ("SGD" ∉ SolverTypeList (GlobalState.mk ([] : CreatorRegistry Nat)
        ([] : CreatorRegistry Int)).regD ∧
     "SGD" ∉ SolverTypeList (GlobalState.mk ([] : CreatorRegistry Nat)
        ([] : CreatorRegistry Int)).regF) ∧
    ((SolverRegistererFloat (GlobalState.mk ([] : CreatorRegistry Nat)
        ([] : CreatorRegistry Int)) "SGD"
        (fun p => p.payload)).1.regD = ([] : CreatorRegistry Int) ∧
     (SolverRegistererDouble (GlobalState.mk ([] : CreatorRegistry Nat)
        ([] : CreatorRegistry Int)) "SGD"
        (fun p => (p.payload : Int))).1.regF = ([] : CreatorRegistry Nat) ∧
     (CreateSolver (SolverRegistererFloat (GlobalState.mk
        ([] : CreatorRegistry Nat) ([] : CreatorRegistry Int)) "SGD"
        (fun p => p.payload)).1.regD ⟨"SGD", 7⟩).2 =
       Except.error ("Unknown solver type: " ++ "SGD" ++ " (known types: " ++
         SolverTypeListString ([] : CreatorRegistry Int) ++ ")") ∧
     (CreateSolver (SolverRegistererDouble (GlobalState.mk
        ([] : CreatorRegistry Nat) ([] : CreatorRegistry Int)) "SGD"
        (fun p => (p.payload : Int))).1.regF ⟨"SGD", 7⟩).2 =
       Except.error ("Unknown solver type: " ++ "SGD" ++ " (known types: " ++
         SolverTypeListString ([] : CreatorRegistry Nat) ++ ")")) :=
  ⟨⟨by decide, by decide⟩,
    precision_registries_independent
      (GlobalState.mk ([] : CreatorRegistry Nat) ([] : CreatorRegistry Int)) "SGD"
      (fun p => p.payload) (fun p => (p.payload : Int)) 7 (by decide) (by decide)⟩

/-- Claim C5: after every sequence of successful register calls starting
from the empty registry, `SolverTypeList` contains exactly the registered
identifiers: its length equals the number of calls, it has no duplicate
identifiers, and its members are precisely the identifiers of the
calls. -/
theorem solverTypeList_exact {σ : Type} (calls : List (String × Creator σ))
    (reg : CreatorRegistry σ) (h : registerAll [] calls = (reg, none)) :
    (SolverTypeList reg).length = calls.length ∧
    (SolverTypeList reg).Nodup ∧
    ∀ x, x ∈ SolverTypeList reg ↔ x ∈ calls.map Prod.fst := by
  obtain ⟨hs, hlen, hmem⟩ := registerAll_ok calls [] reg List.Pairwise.nil h
  refine ⟨?_, sortedKeys_nodup hs, ?_⟩
  · rw [SolverTypeList, List.length_map, hlen]
    simp
  · intro x
    rw [hmem x]
    simp [SolverTypeList]

/-- Witness for claim C5: two successful registrations, SGD then Adam. -/
theorem solverTypeList_exact_witness :
    registerAll ([] : CreatorRegistry Nat)
        [("SGD", fun p => p.payload), ("Adam", fun p => p.payload + 1)] =
      ([("Adam", some (fun p => p.payload + 1)), ("SGD", some (fun p => p.payload))],
        none) ∧
    ((SolverTypeList
        ([("Adam", some (fun p => p.payload + 1)),
          ("SGD", some (fun p => p.payload))] : CreatorRegistry Nat)).length =
      ([("SGD", fun p => p.payload),
        ("Adam", fun p => p.payload + 1)] : List (String × Creator Nat)).length ∧
     (SolverTypeList
        ([("Adam", some (fun p => p.payload + 1)),
          ("SGD", some (fun p => p.payload))] : CreatorRegistry Nat)).Nodup ∧
     ∀ x, x ∈ SolverTypeList
        ([("Adam", some (fun p => p.payload + 1)),
          ("SGD", some (fun p => p.payload))] : CreatorRegistry Nat) ↔
        x ∈ ([("SGD", fun p => p.payload),
          ("Adam", fun p => p.payload + 1)] : List (String × Creator Nat)).map
            Prod.fst) :=
  ⟨rfl,
    solverTypeList_exact
      [("SGD", fun p => p.payload), ("Adam", fun p => p.payload + 1)]
      [("Adam", some (fun p => p.payload + 1)), ("SGD", some (fun p => p.payload))]
      rfl⟩

/-- Claim C6: for a well-formed registry, the diagnostic enumeration
`SolverTypeListString` equals the registered identifiers joined with the
separator ", " — no leading or trailing separator, empty for the empty
registry — and the enumerated identifiers appear in the map order, which
is lexicographically sorted. -/
theorem solverTypeListString_join_sorted {σ : Type} (reg : CreatorRegistry σ)
    (hs : SortedKeys reg) :
    SolverTypeListString reg = specJoinTypes (SolverTypeList reg) ∧
    List.Pairwise (fun a b => strLt a b = true) (SolverTypeList reg) ∧
    SolverTypeListString ([] : CreatorRegistry σ) = "" :=
  ⟨solverTypeListString_eq_specJoin reg, hs, rfl⟩

/-- Witness for claim C6 on a two-entry registry. -/
theorem solverTypeListString_join_sorted_witness :
    SortedKeys ([("Adam", some (fun p => p.payload)),
        ("SGD", some (fun p => p.payload + 1))] : CreatorRegistry Nat) ∧
    (SolverTypeListString
        ([("Adam", some (fun p => p.payload)),
          ("SGD", some (fun p => p.payload + 1))] : CreatorRegistry Nat) =
      specJoinTypes (SolverTypeList
        ([("Adam", some (fun p => p.payload)),
          ("SGD", some (fun p => p.payload + 1))] : CreatorRegistry Nat)) ∧
     List.Pairwise (fun a b => strLt a b = true)
       (SolverTypeList
         ([("Adam", some (fun p => p.payload)),
           ("SGD", some (fun p => p.payload + 1))] : CreatorRegistry Nat)) ∧
     SolverTypeListString ([] : CreatorRegistry Nat) = "") :=
  ⟨by decide,
    solverTypeListString_join_sorted
      [("Adam", some (fun p => p.payload)), ("SGD", some (fun p => p.payload + 1))]
      (by decide)⟩

/-- Claim C7: constructing a SolverRegisterer performs exactly one
AddCreator call with the same identifier and creator and has no other
effect: the resulting state is precisely the state produced by that
single register call, the registry of the other precision type is left
untouched, and the error outcome is exactly that of the register call.
Stated for both precision types. -/
theorem solverRegisterer_single_register {σf σd : Type} (st : GlobalState σf σd)
    (t : String) (cF : Creator σf) (cD : Creator σd) :
    SolverRegistererFloat st t cF =
      (GlobalState.mk (AddCreator st.regF t cF).1 st.regD,
        (AddCreator st.regF t cF).2) ∧
    SolverRegistererDouble st t cD =
      (GlobalState.mk st.regF (AddCreator st.regD t cD).1,
        (AddCreator st.regD t cD).2) :=
  ⟨rfl, rfl⟩

/-- Claim C8: one use of the registration idiom registers the strategy
once per precision type, of which there are exactly two:
REGISTER_SOLVER_CLASS expands to REGISTER_SOLVER_CREATOR with the
auto-generated creator, which is exactly the two registrar
instantiations for the same identifier (float first, then double); on a
state where the identifier is fresh for both precision types, each of
the two registries gains exactly the entry for that identifier with the
respective precision-specialized creator, and the auto-generated creator
returns the instance that the concrete class builds from the given
configuration object. -/
theorem registerSolverClass_two_precisions {σf σd : Type} (st : GlobalState σf σd)
    (t : String) (mkF : SolverParameter → σf) (mkD : SolverParameter → σd)
    (hF : t ∉ SolverTypeList st.regF) (hD : t ∉ SolverTypeList st.regD) :
    RegisterSolverClass st t mkF mkD =
      RegisterSolverCreator st t (CreatorOfClass mkF) (CreatorOfClass mkD) ∧
    RegisterSolverCreator st t (CreatorOfClass mkF) (CreatorOfClass mkD) =
      SolverRegistererDouble
        (SolverRegistererFloat st t (CreatorOfClass mkF)).1 t
        (CreatorOfClass mkD) ∧
    RegisterSolverClass st t mkF mkD =
      (GlobalState.mk (mapInsert t (some (CreatorOfClass mkF)) st.regF)
        (mapInsert t (some (CreatorOfClass mkD)) st.regD), none) ∧
    mapFind (RegisterSolverClass st t mkF mkD).1.regF t =
      some (some (CreatorOfClass mkF)) ∧
    mapFind (RegisterSolverClass st t mkF mkD).1.regD t =
      some (some (CreatorOfClass mkD)) ∧
    (∀ param, CreatorOfClass mkF param = mkF param) ∧
    (∀ param, CreatorOfClass mkD param = mkD param) := by
  have hAF := addCreator_ok (CreatorOfClass mkF) hF
  have hAD := addCreator_ok (CreatorOfClass mkD) hD
  have h3 : RegisterSolverClass st t mkF mkD =
      (GlobalState.mk (mapInsert t (some (CreatorOfClass mkF)) st.regF)
        (mapInsert t (some (CreatorOfClass mkD)) st.regD), none) := by
    simp [RegisterSolverClass, RegisterSolverCreator, SolverRegistererFloat,
      SolverRegistererDouble, hAF, hAD]
  refine ⟨rfl, ?_, h3, ?_, ?_, fun _ => rfl, fun _ => rfl⟩
  · simp [RegisterSolverCreator, SolverRegistererFloat, SolverRegistererDouble,
      hAF, hAD]
  · rw [h3]
    exact mapFind_mapInsert_self st.regF t (some (CreatorOfClass mkF))
  · rw [h3]
    exact mapFind_mapInsert_self st.regD t (some (CreatorOfClass mkD))

/-- Witness for claim C8: registering SGD once for both precision types
from empty registries. -/
theorem registerSolverClass_two_precisions_witness :
    ("SGD" ∉ SolverTypeList (GlobalState.mk ([] : CreatorRegistry Nat)
        ([] : CreatorRegistry Int)).regF ∧
     "SGD" ∉ SolverTypeList (GlobalState.mk ([] : CreatorRegistry Nat)
        ([] : CreatorRegistry Int)).regD) ∧
    (RegisterSolverClass (GlobalState.mk ([] : CreatorRegistry Nat)
        ([] : CreatorRegistry Int)) "SGD" (fun p => p.payload)
        (fun p => (p.payload : Int)) =
      RegisterSolverCreator (GlobalState.mk ([] : CreatorRegistry Nat)
        ([] : CreatorRegistry Int)) "SGD" (CreatorOfClass (fun p => p.payload))
        (CreatorOfClass (fun p => (p.payload : Int))) ∧
     RegisterSolverCreator (GlobalState.mk ([] : CreatorRegistry Nat)
        ([] : CreatorRegistry Int)) "SGD" (CreatorOfClass (fun p => p.payload))
        (CreatorOfClass (fun p => (p.payload : Int))) =
      SolverRegistererDouble
        (SolverRegistererFloat (GlobalState.mk ([] : CreatorRegistry Nat)
          ([] : CreatorRegistry Int)) "SGD"
          (CreatorOfClass (fun p => p.payload))).1 "SGD"
        (CreatorOfClass (fun p => (p.payload : Int))) ∧
     RegisterSolverClass (GlobalState.mk ([] : CreatorRegistry Nat)
        ([] : CreatorRegistry Int)) "SGD" (fun p => p.payload)
        (fun p => (p.payload : Int)) =
      (GlobalState.mk
        (mapInsert "SGD" (some (CreatorOfClass (fun p => p.payload)))
          ([] : CreatorRegistry Nat))
        (mapInsert "SGD" (some (CreatorOfClass (fun p => (p.payload : Int))))
          ([] : CreatorRegistry Int)), none) ∧
     mapFind (RegisterSolverClass (GlobalState.mk ([] : CreatorRegistry Nat)
        ([] : CreatorRegistry Int)) "SGD" (fun p => p.payload)
        (fun p => (p.payload : Int))).1.regF "SGD" =
      some (some (CreatorOfClass (fun p => p.payload))) ∧
     mapFind (RegisterSolverClass (GlobalState.mk ([] : CreatorRegistry Nat)
        ([] : CreatorRegistry Int)) "SGD" (fun p => p.payload)
        (fun p => (p.payload : Int))).1.regD "SGD" =
      some (some (CreatorOfClass (fun p => (p.payload : Int)))) ∧
     (∀ param, CreatorOfClass (fun p => p.payload) param = param.payload) ∧
     (∀ param, CreatorOfClass (fun p => (p.payload : Int)) param =
        (param.payload : Int))) :=
  ⟨⟨by decide, by decide⟩,
    registerSolverClass_two_precisions
      (GlobalState.mk ([] : CreatorRegistry Nat) ([] : CreatorRegistry Int))
      "SGD" (fun p => p.payload) (fun p => (p.payload : Int))
      (by decide) (by decide)⟩

/-- Claim C9: register is atomic on failure: a call with an identifier
already present leaves the registry completely unchanged — the duplicate
check precedes any insertion, so nothing is overwritten, added or
removed — and reports the fatal DuplicateRegistration message. -/
theorem addCreator_atomic_on_failure {σ : Type} (reg : CreatorRegistry σ)
    (t : String) (c : Creator σ) (h : t ∈ SolverTypeList reg) :
    (AddCreator reg t c).1 = reg ∧
    (AddCreator reg t c).2 =
      some ("Solver type " ++ t ++ " already registered.") ∧
    mapFind (AddCreator reg t c).1 t = mapFind reg t := by
  rw [addCreator_dup c h]
  exact ⟨rfl, rfl, rfl⟩

/-- Witness for claim C9: re-registering SGD with a different creator
leaves the one-entry registry unchanged. -/
theorem addCreator_atomic_on_failure_witness :
    "SGD" ∈ SolverTypeList
      ([("SGD", some (fun p => p.payload))] : CreatorRegistry Nat) ∧
    ((AddCreator ([("SGD", some (fun p => p.payload))] : CreatorRegistry Nat)
        "SGD" (fun p => p.payload + 1)).1 =
      [("SGD", some (fun p => p.payload))] ∧
     (AddCreator ([("SGD", some (fun p => p.payload))] : CreatorRegistry Nat)
        "SGD" (fun p => p.payload + 1)).2 =
      some ("Solver type " ++ "SGD" ++ " already registered.") ∧
     mapFind (AddCreator ([("SGD", some (fun p => p.payload))] :
        CreatorRegistry Nat) "SGD" (fun p => p.payload + 1)).1 "SGD" =
      mapFind ([("SGD", some (fun p => p.payload))] : CreatorRegistry Nat)
        "SGD") :=
  ⟨by decide,
    addCreator_atomic_on_failure [("SGD", some (fun p => p.payload))] "SGD"
      (fun p => p.payload + 1) (by decide)⟩

/-- Claim C10: create is read-only under its precondition: when the
identifier carried by the configuration object is present (the count
check yields 1), CreateSolver leaves the registry unchanged — the
presence check makes the inserting branch of the subscript operator
unreachable. -/
theorem createSolver_read_only {σ : Type} (reg : CreatorRegistry σ)
    (param : SolverParameter) (h : mapCount reg param.type = 1) :
    (CreateSolver reg param).1 = reg :=
  createSolver_fst_of_present h

/-- Witness for claim C10 on a one-entry registry. -/
theorem createSolver_read_only_witness :
    mapCount ([("SGD", some (fun p => p.payload))] : CreatorRegistry Nat)
      (SolverParameter.mk "SGD" 7).type = 1 ∧
    (CreateSolver ([("SGD", some (fun p => p.payload))] : CreatorRegistry Nat)
      ⟨"SGD", 7⟩).1 = [("SGD", some (fun p => p.payload))] :=
  ⟨by decide,
    createSolver_read_only [("SGD", some (fun p => p.payload))] ⟨"SGD", 7⟩
      (by decide)⟩

end SolverFactory
